import Mathlib

/-!
Verification of the distributed-mutex and store layer of ARP4G-mongodb
(`mongorepo/mongodb.go`), via a shallow embedding.

The mutex state for a single identity is the MongoDB document in the
`mutexes_*` collection: fields `state` (0 = UNLOCKED, 1 = LOCKED) and
`time` (`acquiredAtMillis`, a Go `uint64` of milliseconds). The store
serializes conditional single-document updates, so each adapter call is
modelled as an atomic step on the (per-identity) record state.

Go `uint64` arithmetic is modelled on `Nat` with explicit reduction
modulo `2^64` at the one place the source subtracts
(`unlockTime := currTime - mutexes.maxLockTime`).
-/

namespace Mongorepo

/-- Width of Go's `uint64`. -/
def w64 : Nat := 2 ^ 64

/-- Go `uint64` subtraction `a - b`, wrapping modulo `2^64`. -/
def usub64 (a b : Nat) : Nat := (a + (w64 - b % w64)) % w64

/-- The lock document for one identity: `state` (0 = UNLOCKED, 1 = LOCKED)
and `time` (`acquiredAtMillis`). -/
structure LockRecord where
  state : Nat
  time  : Nat
deriving Repr, DecidableEq

/-- Per-identity store content: `none` when no document with this `_id`
exists. -/
abbrev LockState := Option LockRecord

/-- The filter of `tryLock`'s `FindOneAndUpdate` (mongodb.go:122-131),
restricted to a record with the right `_id`:
`state = 0 OR time < unlockTime`. -/
abbrev lockMatches (r : LockRecord) (unlockTime : Nat) : Prop :=
  r.state = 0 ∨ r.time < unlockTime

/-- `tryLock` (mongodb.go:121-143): one atomic `FindOneAndUpdate`. If a
record matches the filter it is set to `state = 1, time = currTime` and
the call reports success; if no document matches, the driver yields
`ErrNoDocuments`, which the code maps to `(false, nil)`. The record is
unchanged on failure. -/
def tryLock (s : LockState) (currTime unlockTime : Nat) : Bool × LockState :=
  match s with
  | none => (false, none)
  | some r =>
      if lockMatches r unlockTime then (true, some ⟨1, currTime⟩)
      else (false, some r)

/-- `exists` (mongodb.go:145-156): a point lookup; `ErrNoDocuments` maps to
`false`, a found document to `true`. -/
def existsId (s : LockState) : Bool := s.isSome

/-- The retry loop of `Lock` (mongodb.go:107-117): up to `retryTimesLeft`
further `tryLock` attempts, each with the SAME `currTime`/`unlockTime`
computed at `Lock` entry. Returns the outcome, the final record state and
the trace of `(currTime, unlockTime)` arguments passed to `tryLock`. -/
def lockLoop (s : LockState) (currTime unlockTime : Nat) :
    Nat → Bool × LockState × List (Nat × Nat)
  | 0 => (false, s, [])
  | n + 1 =>
      let t := tryLock s currTime unlockTime
      if t.1 then (true, t.2, [(currTime, unlockTime)])
      else
        let l := lockLoop t.2 currTime unlockTime n
        (l.1, l.2.1, (currTime, unlockTime) :: l.2.2)

/-- `Lock` (mongodb.go:88-119), instrumented with the trace of
`(currTime, unlockTime)` pairs passed to `tryLock`. `currTime` is read
from the wall clock once at entry (line 89) and
`unlockTime := currTime - maxLockTime` in `uint64` arithmetic (line 90);
then: one `tryLock`; on failure an existence probe (absent ⇒
`(false, true)`); otherwise the bounded retry loop; exhaustion is the
normal result `(false, false)`. -/
def LockT (s : LockState) (currTime maxLockTime retryCount : Nat) :
    Bool × Bool × LockState × List (Nat × Nat) :=
  let unlockTime := usub64 currTime maxLockTime
  let t := tryLock s currTime unlockTime
  if t.1 then (true, false, t.2, [(currTime, unlockTime)])
  else if existsId t.2 = false then (false, true, t.2, [(currTime, unlockTime)])
  else
    let l := lockLoop t.2 currTime unlockTime retryCount
    (l.1, false, l.2.1, (currTime, unlockTime) :: l.2.2)

/-- `Lock`'s observable result: `(ok, absent, final record state)`. -/
def Lock (s : LockState) (currTime maxLockTime retryCount : Nat) :
    Bool × Bool × LockState :=
  let r := LockT s currTime maxLockTime retryCount
  (r.1, r.2.1, r.2.2.1)

/-- `Lock` as the Go code consumes the clock: `time.Now().UnixMilli()` is
called exactly once (mongodb.go:89), so only `clock 0` is read; `clock k`
is the reading the k-th call of `time.Now` would return. -/
def LockClock (clock : Nat → Nat) (s : LockState) (maxLockTime retryCount : Nat) :
    Bool × Bool × LockState × List (Nat × Nat) :=
  LockT s (clock 0) maxLockTime retryCount

/-- Source constant `defaultLockRetryCount` (mongodb.go:85). -/
def defaultLockRetryCount : Nat := 300

/-- Source constant `defaultMaxLockTime` (mongodb.go:86). -/
def defaultMaxLockTime : Nat := 1 * 60 * 1000

/-- The retry loop as the spec's words describe it (refinement comparison
for the recomputation claim): every retry attempt recomputes `now` (the
next wall-clock reading, index `k`) and `staleBefore = now - maxLockTime`
before re-issuing the conditional acquire. -/
def lockLoopRecomputing (clock : Nat → Nat) (maxLockTime : Nat) :
    LockState → Nat → Nat → Bool × LockState
  | s, _, 0 => (false, s)
  | s, k, n + 1 =>
      let t := tryLock s (clock k) (usub64 (clock k) maxLockTime)
      if t.1 then (true, t.2)
      else lockLoopRecomputing clock maxLockTime t.2 (k + 1) n

/-- A clock trace where `Lock` entry reads 2000 and the wall clock has
advanced to 4000 by the time of any retry. -/
def cexClock : Nat → Nat := fun k => if k = 0 then 2000 else 4000

/-- A sequence of conditional-acquire attempts, serialized by the store
(each `tryLock` is one atomic `FindOneAndUpdate` on the same document):
runs the attempts in order and counts how many return `acquired = true`.
Each attempt carries its own `(currTime, unlockTime)` arguments. -/
def runAttempts : LockState → List (Nat × Nat) → Nat × LockState
  | s, [] => (0, s)
  | s, (c, u) :: rest =>
      let t := tryLock s c u
      let r := runAttempts t.2 rest
      ((if t.1 then 1 else 0) + r.1, r.2)

/-- One iteration of `UnlockAll` (mongodb.go:183-187): `UpdateOne` with
filter `_id = id` and update `$set state: 0`. A present record gets
`state := 0` with every other field untouched; an absent one stays
absent; the call's outcome is discarded by the source. The whole-store
state maps each identity to its optional record. -/
def release1 (st : Nat → Option LockRecord) (id : Nat) : Nat → Option LockRecord :=
  fun j => if j = id then (st id).map (fun r => { r with state := 0 }) else st j

/-- `UnlockAll` (mongodb.go:182-188): releases each identity in the list in
order; it returns nothing (errors are not reported to the caller). -/
def UnlockAll (st : Nat → Option LockRecord) : List Nat → (Nat → Option LockRecord)
  | [] => st
  | id :: rest => UnlockAll (release1 st id) rest

/-- Errors the mongo driver can surface, as the source distinguishes them:
the `ErrNoDocuments` sentinel, a `WriteException` carrying write-error
codes, and any other driver/transport error (opaque, tagged by a number). -/
inductive MongoError where
  | noDocuments
  | writeException (codes : List Nat)
  | other (tag : Nat)
deriving Repr, DecidableEq

/-- `isDup` (mongodb.go:170-180): the error is a `WriteException` one of
whose write errors has code 11000. -/
def isDup : MongoError → Bool
  | .writeException codes => codes.contains 11000
  | _ => false

/-- `NewAndLock` (mongodb.go:158-168) as a function of the `InsertOne`
outcome (`none` = insert succeeded, `some e` = the driver returned error
`e`): success yields `(true, nil)`; a duplicate-key failure yields
`(false, nil)`; any other error is propagated as `(false, err)`. -/
def NewAndLock (insertErr : Option MongoError) : Bool × Option MongoError :=
  match insertErr with
  | none => (true, none)
  | some e => if isDup e then (false, none) else (false, some e)

/-- Outcome of `coll.FindOne` as seen through `sr.Err()` and `sr.Decode`:
either a document was found, or the call failed with an error (absence
surfaces as the `ErrNoDocuments` sentinel). Documents are opaque (`Nat`). -/
inductive FindOneOutcome where
  | found (doc : Nat)
  | failure (e : MongoError)
deriving Repr, DecidableEq

/-- `Load` (mongodb.go:21-36). `decode` models
`newZeroEntity` + `bson.Unmarshal`: `decode (some d)` is the entity decoded
from document `d`, `decode none` the entity unmarshalled from the empty
document. The source checks `sr.Err()` but early-returns only on the
`ErrNoDocuments` sentinel; on any other error it falls through:
`sr.Decode` fails leaving `result` empty, `bson.Marshal` of the empty
document succeeds and overwrites `err` with nil, and the function returns
`(entity, true, nil)`. -/
def Load (zeroT : Nat) (decode : Option Nat → Nat) (sr : FindOneOutcome) :
    Nat × Bool × Option MongoError :=
  match sr with
  | .failure .noDocuments => (zeroT, false, none)
  | .failure _ => (decode none, true, none)
  | .found d => (decode (some d), true, none)

theorem usub64_of_le {a b : Nat} (hba : b ≤ a) (ha : a < w64) :
    usub64 a b = a - b := by
  have hb : b % w64 = b := Nat.mod_eq_of_lt (lt_of_le_of_lt hba ha)
  have hbw : b ≤ w64 := le_of_lt (lt_of_le_of_lt hba ha)
  unfold usub64
  rw [hb]
  have h1 : a + (w64 - b) = (a - b) + w64 := by omega
  rw [h1, Nat.add_mod_right]
  exact Nat.mod_eq_of_lt (by omega)

theorem usub64_of_lt {a b : Nat} (hab : a < b) (hb : b < w64) :
    usub64 a b = a + w64 - b := by
  have hbm : b % w64 = b := Nat.mod_eq_of_lt hb
  unfold usub64
  rw [hbm]
  have h1 : a + (w64 - b) = a + w64 - b := by omega
  rw [h1]
  exact Nat.mod_eq_of_lt (by omega)

/-- Claim C4: for an identity with no existing lock record, `Lock` (whose
first conditional acquire matches nothing) probes existence and returns
`acquired = false, absent = true`, never `acquired = true`; the store is
left unchanged. -/
theorem lock_absent_signal (currTime maxLockTime retryCount : Nat) :
    Lock none currTime maxLockTime retryCount = (false, true, none) := by
  simp [Lock, LockT, tryLock, existsId]

/-- Claim C10: `unlockTime = currTime - maxLockTime` is an unsigned 64-bit
subtraction; whenever `currTime < maxLockTime` it wraps modulo `2^64` to
`currTime + 2^64 - maxLockTime`, a value at least `2^64 - maxLockTime`
(near `2^64`), so the staleness predicate `time < unlockTime` holds for
every stored timestamp `t ≤ currTime`, and even a freshly acquired,
still-LOCKED record matches the conditional acquire and is re-acquired. -/
theorem unlockTime_wraparound (currTime maxLockTime t : Nat)
    (h1 : currTime < maxLockTime) (h2 : maxLockTime < w64) (h3 : t ≤ currTime) :
    usub64 currTime maxLockTime = currTime + w64 - maxLockTime ∧
    w64 - maxLockTime ≤ usub64 currTime maxLockTime ∧
    lockMatches ⟨1, t⟩ (usub64 currTime maxLockTime) ∧
    tryLock (some ⟨1, t⟩) currTime (usub64 currTime maxLockTime)
      = (true, some ⟨1, currTime⟩) := by
  have he : usub64 currTime maxLockTime = currTime + w64 - maxLockTime :=
    usub64_of_lt h1 h2
  have hm : lockMatches ⟨1, t⟩ (usub64 currTime maxLockTime) := by
    right
    rw [he]
    show t < currTime + w64 - maxLockTime
    omega
  refine ⟨he, by rw [he]; omega, hm, ?_⟩
  simp [tryLock, hm]

/-- Claim C10 witness: concrete wrap at `currTime = 1000`,
`maxLockTime = 60000`, stored timestamp `1000`. -/
theorem unlockTime_wraparound_witness :
    usub64 1000 60000 = 1000 + w64 - 60000 ∧
    w64 - 60000 ≤ usub64 1000 60000 ∧
    lockMatches ⟨1, 1000⟩ (usub64 1000 60000) ∧
    tryLock (some ⟨1, 1000⟩) 1000 (usub64 1000 60000)
      = (true, some ⟨1, 1000⟩) :=
  unlockTime_wraparound 1000 60000 1000 (by decide)
    (by unfold w64; omega) (by decide)

theorem lockLoop_no_match (r : LockRecord) (c u : Nat) (n : Nat)
    (h : ¬ lockMatches r u) :
    lockLoop (some r) c u n = (false, some r, List.replicate n (c, u)) := by
  induction n with
  | zero => simp [lockLoop]
  | succ n ih => simp [lockLoop, tryLock, h, ih, List.replicate_succ]

/-- Claim C2 counterexample: the record acquired at `t0 = 0` and never
released, with the default `maxLockTime = 60000`, is NOT acquirable by a
new `Lock` call at `now = 60000` even though `now ≥ t0 + maxLockTime`
(the filter uses strict `time < now - maxLockTime`). -/
theorem stale_recovery_claim_cex :
    60000 ≥ 0 + 60000 ∧
    (Lock (some ⟨1, 0⟩) 60000 defaultMaxLockTime defaultLockRetryCount).1
      = false := by
  have hm : ¬ lockMatches ⟨1, 0⟩ (usub64 60000 defaultMaxLockTime) := by decide
  refine ⟨by omega, ?_⟩
  simp [Lock, LockT, tryLock, hm, existsId,
    lockLoop_no_match ⟨1, 0⟩ 60000 (usub64 60000 defaultMaxLockTime)
      defaultLockRetryCount hm]

/-- Claim C2 (amended): for a record acquired at `t0` and never released
(state LOCKED), a new `Lock` call at `now` succeeds if and only if
`now > t0 + maxLockTime` (strictly; equivalently `now ≥ t0 + maxLockTime + 1`),
given `maxLockTime ≤ now < 2^64` so the unsigned subtraction does not
wrap. -/
theorem stale_recovery (t0 now maxLockTime retryCount : Nat)
    (hw : now < w64) (hge : maxLockTime ≤ now) :
    (Lock (some ⟨1, t0⟩) now maxLockTime retryCount).1 = true ↔
      t0 + maxLockTime < now := by
  have hu : usub64 now maxLockTime = now - maxLockTime := usub64_of_le hge hw
  by_cases hm : lockMatches ⟨1, t0⟩ (usub64 now maxLockTime)
  · have ht : t0 + maxLockTime < now := by
      rcases hm with h0 | ht
      · exact absurd h0 (by simp)
      · rw [hu] at ht
        revert ht
        show t0 < now - maxLockTime → _
        omega
    simp [Lock, LockT, tryLock, hm, ht]
  · have ht : ¬ t0 + maxLockTime < now := by
      intro hlt
      exact hm (Or.inr (by rw [hu]; show t0 < now - maxLockTime; omega))
    simp [Lock, LockT, tryLock, hm, existsId,
      lockLoop_no_match ⟨1, t0⟩ now (usub64 now maxLockTime) retryCount hm, ht]

/-- Claim C2 witness: with `t0 = 1000`, `maxLockTime = 1000`, the lock is
acquirable at `now = 2001 > 2000`. -/
theorem stale_recovery_witness :
    (Lock (some ⟨1, 1000⟩) 2001 1000 0).1 = true :=
  (stale_recovery 1000 2001 1000 0 (by unfold w64; omega) (by omega)).mpr
    (by omega)

/-- Claim C5: with `lockRetryCount = 0` and an existing LOCKED, non-stale
record, `Lock` returns `acquired = false, absent = false` after exactly
one conditional-acquire attempt (the trace has one entry: the retry loop
ran zero iterations), leaving the record unchanged; exhaustion is this
normal result, not an error (the model's only error channel is the
store's, which is not exercised). -/
theorem retry_budget_exhaustion (r : LockRecord) (currTime maxLockTime : Nat)
    (hlocked : r.state = 1) (hfresh : usub64 currTime maxLockTime ≤ r.time) :
    LockT (some r) currTime maxLockTime 0
      = (false, false, some r, [(currTime, usub64 currTime maxLockTime)]) := by
  have h : ¬ lockMatches r (usub64 currTime maxLockTime) := by
    rintro (h0 | ht)
    · omega
    · omega
  simp [LockT, tryLock, h, existsId, lockLoop]

/-- Claim C5 witness: record `⟨LOCKED, 500⟩`, `currTime = 1000`,
`maxLockTime = 1000` (threshold 0, record fresh), retry budget 0. -/
theorem retry_budget_exhaustion_witness :
    LockT (some ⟨1, 500⟩) 1000 1000 0
      = (false, false, some ⟨1, 500⟩, [(1000, usub64 1000 1000)]) :=
  retry_budget_exhaustion ⟨1, 500⟩ 1000 1000 rfl (by decide)

theorem lockLoop_trace_const (c u : Nat) (n : Nat) (s : LockState)
    (p : Nat × Nat) (hp : p ∈ (lockLoop s c u n).2.2) : p = (c, u) := by
  induction n generalizing s with
  | zero => simp [lockLoop] at hp
  | succ n ih =>
      rw [lockLoop] at hp
      by_cases h : (tryLock s c u).1 = true
      · rw [if_pos h] at hp
        simpa using hp
      · rw [if_neg h] at hp
        simp at hp
        rcases hp with hp | hp
        · exact hp
        · exact ih _ hp

/-- Claim C3 counterexample: record `⟨LOCKED, 1500⟩`, `maxLockTime = 1000`,
one retry. At `Lock` entry the clock reads 2000 (`staleBefore = 1000`:
not stale); by the retry the wall clock is 4000, under which the record
IS stale (`1500 < 3000`), yet the code's `Lock` returns
`acquired = false` because the retry reuses the entry-time values —
while the loop the claim describes (recomputing `now`/`staleBefore`
each attempt) acquires it. -/
theorem lock_retry_recompute_cex :
    (LockClock cexClock (some ⟨1, 1500⟩) 1000 1).1 = false ∧
    lockMatches ⟨1, 1500⟩ (usub64 (cexClock 1) 1000) ∧
    (lockLoopRecomputing cexClock 1000 (some ⟨1, 1500⟩) 1 1).1 = true := by
  decide

/-- Claim C3 (amended): every conditional-acquire attempt of `Lock` —
the initial one and every retry — uses the single `now` read at `Lock`
entry (`clock 0`) and the `staleBefore = now - maxLockTime` derived from
it; neither is recomputed during the retry loop. -/
theorem lock_trace_single_now (clock : Nat → Nat) (s : LockState)
    (maxLockTime retryCount : Nat) (p : Nat × Nat)
    (hp : p ∈ (LockClock clock s maxLockTime retryCount).2.2.2) :
    p = (clock 0, usub64 (clock 0) maxLockTime) := by
  unfold LockClock LockT at hp
  by_cases h1 : (tryLock s (clock 0) (usub64 (clock 0) maxLockTime)).1 = true
  · rw [if_pos h1] at hp
    simpa using hp
  · rw [if_neg h1] at hp
    by_cases h2 :
        existsId (tryLock s (clock 0) (usub64 (clock 0) maxLockTime)).2 = false
    · rw [if_pos h2] at hp
      simpa using hp
    · rw [if_neg h2] at hp
      simp at hp
      rcases hp with hp | hp
      · exact hp
      · exact lockLoop_trace_const _ _ retryCount _ p hp

/-- Claim C3 amended-theorem witness: with a clock reading 2000 at entry
and a stale record, the single trace entry is
`(2000, usub64 2000 1000)`. -/
theorem lock_trace_single_now_witness :
    ((2000 : Nat), usub64 2000 1000) = (cexClock 0, usub64 (cexClock 0) 1000) :=
  lock_trace_single_now cexClock (some ⟨1, 100⟩) 1000 3
    (2000, usub64 2000 1000) (by decide)

theorem tryLock_fail_eq (s : LockState) (c u : Nat)
    (h : (tryLock s c u).1 = false) : (tryLock s c u).2 = s := by
  rcases s with _ | r
  · rfl
  · by_cases hm : lockMatches r u
    · simp [tryLock, hm] at h
    · simp [tryLock, hm]

theorem runAttempts_locked_zero (r : LockRecord) (l : List (Nat × Nat))
    (hst : r.state = 1) (h : ∀ p ∈ l, p.2 ≤ r.time) :
    runAttempts (some r) l = (0, some r) := by
  induction l with
  | nil => rfl
  | cons q rest ih =>
      rcases q with ⟨c, u⟩
      have hm : ¬ lockMatches r u := by
        rintro (h0 | ht)
        · omega
        · have hu := h (c, u) (by simp)
          simp at hu
          omega
      simp [runAttempts, tryLock, hm, ih (fun p hp => h p (by simp [hp]))]

/-- Claim C1: among any set of concurrent `Lock(i)` attempts — each a
single conditional find-and-update (`tryLock`), serialized by the store
on the one document for identity `i` — at most one receives
`acquired = true`, provided no `Release` occurs and no attempt's
staleness threshold expires any attempt's write time (every attempt's
`unlockTime` is at most every attempt's `currTime`). -/
theorem mutual_exclusion (s : LockState) (l : List (Nat × Nat))
    (h : ∀ p ∈ l, ∀ q ∈ l, q.2 ≤ p.1) :
    (runAttempts s l).1 ≤ 1 := by
  induction l generalizing s with
  | nil => simp [runAttempts]
  | cons q rest ih =>
      rcases q with ⟨c, u⟩
      by_cases hok : (tryLock s c u).1 = true
      · have hs2 : (tryLock s c u).2 = some ⟨1, c⟩ := by
          rcases s with _ | r
          · simp [tryLock] at hok
          · by_cases hm : lockMatches r u
            · simp [tryLock, hm]
            · simp [tryLock, hm] at hok
        have hrest : runAttempts (some ⟨1, c⟩) rest = (0, some ⟨1, c⟩) := by
          apply runAttempts_locked_zero _ _ rfl
          intro p hp
          have hq := h (c, u) (by simp) p (by simp [hp])
          simpa using hq
        simp [runAttempts, hok, hs2, hrest]
      · have hs2 := tryLock_fail_eq s c u (by simpa using hok)
        have hrec := ih s (fun p hp q hq => h p (by simp [hp]) q (by simp [hq]))
        simp [runAttempts, hok, hs2]
        exact hrec

/-- Claim C1 witness: three serialized attempts on an UNLOCKED record,
all with threshold 40 ≤ every write time 100: one success at most. -/
theorem mutual_exclusion_witness :
    (runAttempts (some ⟨0, 0⟩) [(100, 40), (100, 40), (100, 40)]).1 ≤ 1 :=
  mutual_exclusion (some ⟨0, 0⟩) [(100, 40), (100, 40), (100, 40)] (by decide)

/-- Claim C6: `NewAndLock` returns `acquired = false` with a nil error
exactly when the insert failed with a duplicate-key write error
(code 11000); any other insert error is propagated; a successful insert
yields `acquired = true`. -/
theorem newAndLock_dup_policy (insertErr : Option MongoError) :
    (NewAndLock insertErr = (false, none) ↔
      ∃ e, insertErr = some e ∧ isDup e = true) ∧
    (∀ e, insertErr = some e → isDup e = false →
      NewAndLock insertErr = (false, some e)) ∧
    (insertErr = none → NewAndLock insertErr = (true, none)) := by
  rcases insertErr with _ | e
  · simp [NewAndLock]
  · by_cases hd : isDup e = true
    · simp [NewAndLock, hd]
    · simp [NewAndLock, hd]

/-- Claim C6 witness: a duplicate-key write error collapses to
`(false, nil)`. -/
theorem newAndLock_dup_policy_witness :
    NewAndLock (some (.writeException [11000])) = (false, none) :=
  (newAndLock_dup_policy (some (.writeException [11000]))).1.mpr
    ⟨.writeException [11000], rfl, by decide⟩

theorem unlockAll_not_mem (st : Nat → Option LockRecord) (ids : List Nat)
    (j : Nat) (hj : j ∉ ids) : UnlockAll st ids j = st j := by
  induction ids generalizing st with
  | nil => rfl
  | cons i rest ih =>
      have hji : j ≠ i := fun h => hj (by simp [h])
      have hjr : j ∉ rest := fun h => hj (by simp [h])
      show UnlockAll (release1 st i) rest j = st j
      rw [ih (release1 st i) hjr]
      simp [release1, hji]

theorem unlockAll_mem (st : Nat → Option LockRecord) (ids : List Nat)
    (i : Nat) (hi : i ∈ ids) :
    UnlockAll st ids i = (st i).map (fun r => { r with state := 0 }) := by
  induction ids generalizing st with
  | nil => simp at hi
  | cons a rest ih =>
      show UnlockAll (release1 st a) rest i = _
      by_cases hr : i ∈ rest
      · rw [ih (release1 st a) hr]
        by_cases hia : i = a
        · subst hia
          simp only [release1, if_pos rfl]
          rcases st i with _ | r
          · rfl
          · rfl
        · simp [release1, hia]
      · have hia : i = a := by
          rcases List.mem_cons.mp hi with h | h
          · exact h
          · exact absurd h hr
        subst hia
        rw [unlockAll_not_mem (release1 st i) rest i hr]
        simp [release1]

/-- Claim C7: for every identity `i` in its argument list, `UnlockAll`
sets the record's `state` to UNLOCKED (0) and changes nothing else — the
record is never deleted, its `time` (`acquiredAtMillis`) is unchanged,
identities outside the list are untouched, no error is reported (the
source discards the update outcome and returns nothing), and running it
twice in a row leaves the store exactly as after the first run, UNLOCKED
both times. -/
theorem unlockAll_release (st : Nat → Option LockRecord) (ids : List Nat)
    (i : Nat) (hi : i ∈ ids) :
    UnlockAll st ids i = (st i).map (fun r => { r with state := 0 }) ∧
    (UnlockAll st ids i).isSome = (st i).isSome ∧
    (∀ r, st i = some r → UnlockAll st ids i = some ⟨0, r.time⟩) ∧
    (∀ j, j ∉ ids → UnlockAll st ids j = st j) ∧
    UnlockAll (UnlockAll st ids) ids = UnlockAll st ids := by
  refine ⟨unlockAll_mem st ids i hi, ?_, ?_, fun j hj => unlockAll_not_mem st ids j hj, ?_⟩
  · rw [unlockAll_mem st ids i hi]
    rcases st i with _ | r
    · rfl
    · rfl
  · intro r hr
    rw [unlockAll_mem st ids i hi, hr]
    rfl
  · funext j
    by_cases hj : j ∈ ids
    · rw [unlockAll_mem _ ids j hj, unlockAll_mem st ids j hj]
      rcases st j with _ | r
      · rfl
      · rfl
    · rw [unlockAll_not_mem _ ids j hj, unlockAll_not_mem st ids j hj]

/-- Claim C7 witness: releasing identity 5 on a store where every record
is `⟨LOCKED, 42⟩` turns record 5 into `⟨UNLOCKED, 42⟩`. -/
theorem unlockAll_release_witness :
    UnlockAll (fun _ => some ⟨1, 42⟩) [5] 5
      = ((fun _ => some (⟨1, 42⟩ : LockRecord)) 5).map
          (fun r => { r with state := 0 }) :=
  (unlockAll_release (fun _ => some ⟨1, 42⟩) [5] 5 (by simp)).1

/-- Claim C8 counterexample: a successful LOCKED transition can DECREASE
`acquiredAtMillis`. An UNLOCKED record with stored timestamp 100 is
acquired by a caller whose `currTime` is 50 (`maxLockTime = 10`): the
acquire succeeds and writes `time = 50 < 100`. -/
theorem acquiredAt_monotone_cex :
    Lock (some ⟨0, 100⟩) 50 10 0 = (true, false, some ⟨1, 50⟩) ∧ 50 < 100 := by
  decide

/-- Claim C8 (amended): every successful LOCKED transition writes the
caller's `currTime`; on the staleness branch — the record is LOCKED and
matched only via `time < currTime - maxLockTime` (no wrap:
`maxLockTime ≤ currTime < 2^64`) — this strictly increases
`acquiredAtMillis`; but acquiring an UNLOCKED record writes `currTime`
unconditionally, which can be smaller than the stored timestamp, so
`acquiredAtMillis` is not monotone in general. -/
theorem acquiredAt_stale_reclaim_increases (r : LockRecord)
    (currTime maxLockTime : Nat) (hw : currTime < w64)
    (hm : maxLockTime ≤ currTime) (hlocked : r.state = 1)
    (hok : (tryLock (some r) currTime (usub64 currTime maxLockTime)).1 = true) :
    r.time < currTime ∧
    (tryLock (some r) currTime (usub64 currTime maxLockTime)).2
      = some ⟨1, currTime⟩ := by
  have hu : usub64 currTime maxLockTime = currTime - maxLockTime :=
    usub64_of_le hm hw
  have hmt : lockMatches r (usub64 currTime maxLockTime) := by
    by_contra hn
    simp [tryLock, hn] at hok
  have ht : r.time < currTime - maxLockTime := by
    rcases hmt with h0 | ht
    · omega
    · rwa [hu] at ht
  exact ⟨by omega, by simp [tryLock, hmt]⟩

/-- Claim C8 amended-theorem witness: stale reclaim of `⟨LOCKED, 5⟩` at
`currTime = 2000`, `maxLockTime = 1000`. -/
theorem acquiredAt_stale_reclaim_increases_witness :
    (⟨1, 5⟩ : LockRecord).time < 2000 ∧
    (tryLock (some ⟨1, 5⟩) 2000 (usub64 2000 1000)).2 = some ⟨1, 2000⟩ :=
  acquiredAt_stale_reclaim_increases ⟨1, 5⟩ 2000 1000
    (by unfold w64; omega) (by omega) rfl (by decide)

/-- Claim C9 (code bug in `Load`, mongodb.go:21-36): when `FindOne` fails
with an error other than the no-documents sentinel (here the transport
error `other 3`), `Load` does not propagate it — the early return fires
only for `ErrNoDocuments`, the error is then overwritten by the
successful marshal of the empty result, and the call reports the
entity decoded from the empty document with `found = true` and a nil
error, instead of returning the error. -/
theorem load_swallows_transport_error :
    Load 0 (fun _ => 7) (.failure (.other 3)) = (7, true, none) := rfl

end Mongorepo
